import Mathlib

/-!
Verification development for the `AIDataVisualization` widget
(`src/ai-visualization.ts`).  The TypeScript class is shallowly embedded:
pure string manipulation becomes functions on `List Char` / `String`,
the mutable instance fields become an explicit `WidgetState` record,
DOM / callback side effects are recorded in an explicit effect record,
and the promise returned by `generateVisualization` is modelled by
`Except` (an `Except.error` would be a rejected promise).
-/

/-- JavaScript whitespace (the characters relevant to `String.prototype.trim`
and the `\s` regex class, restricted to the ASCII range used here). -/
def isJsWs (c : Char) : Bool :=
  c = ' ' || c = '\t' || c = '\n' || c = '\r' || c = '\x0b' || c = '\x0c'

/-- Model of `String.prototype.trim` on a character list: drop whitespace from both ends. -/
def trimL (l : List Char) : List Char :=
  ((l.dropWhile isJsWs).reverse.dropWhile isJsWs).reverse

/-- Model of `textarea.value.trim()` / `raw.trim()` at `String` level. -/
def jsTrim (s : String) : String :=
  ⟨trimL s.data⟩

/-- The fenced-code marker `` ``` `` . -/
def fenceMarker : String := "```"

/-- Step of `sanitizeHtmlResponse`: `cleaned.replace(/^```\s*html\s*/i, '')`.
The anchored regex matches iff the string starts with the fence marker and,
after the following whitespace run, the (case-insensitive) tag `html`;
the match consumes the marker, the tag and the maximal whitespace around it. -/
def dropFenceHtml (l : List Char) : List Char :=
  if fenceMarker.data.isPrefixOf l then
    let r := (l.drop 3).dropWhile isJsWs
    if (r.take 4).map Char.toLower = "html".data then
      (r.drop 4).dropWhile isJsWs
    else l
  else l

/-- Step of `sanitizeHtmlResponse`: `cleaned.replace(/^```/, '')`. -/
def dropFenceBare (l : List Char) : List Char :=
  if fenceMarker.data.isPrefixOf l then l.drop 3 else l

/-- Step of `sanitizeHtmlResponse`: `cleaned.replace(/```\s*$/i, '')`.
The regex has a unique possible match: the fence marker whose suffix is
whitespace-only; the match (marker plus trailing whitespace) is removed. -/
def dropTrailingFence (l : List Char) : List Char :=
  let r := l.reverse.dropWhile isJsWs
  if fenceMarker.data.isPrefixOf r then (r.drop 3).reverse else l

/-- Core of `sanitizeHtmlResponse` on character lists: trim, strip a leading
```` ```html ```` or `` ``` `` fence, strip a trailing `` ``` `` fence, trim. -/
def sanitizeData (l : List Char) : List Char :=
  trimL (dropTrailingFence (dropFenceBare (dropFenceHtml (trimL l))))

/-- Model of `sanitizeHtmlResponse(raw)` from the source: strips ```` ```html ```` /
`` ``` `` code fences and trims whitespace. -/
def sanitizeHtmlResponse (raw : String) : String :=
  ⟨sanitizeData raw.data⟩

example : sanitizeHtmlResponse "```html\n<p>hi</p>\n```" = "<p>hi</p>" := by decide

example : sanitizeHtmlResponse "```\n<p>hi</p>\n```" = "<p>hi</p>" := by decide

example : sanitizeHtmlResponse "  <p>hi</p>\n" = "<p>hi</p>" := by decide

example : sanitizeHtmlResponse "```html\n```" = "" := by decide

/-- The parent-side bridge client script injected by `injectApiBridge`
(two `<script>` elements: the `apiRequest` promise wrapper with its
30-second timeout, and the error/unhandled-rejection forwarder).
Transcribed verbatim from the source template literal. -/
def apiBridgeScript : String :=
  "\n<script>(function()\x7bwindow.apiRequest=function(u)\x7breturn new Promise((res,rej)=>\x7bconst id='req_'+Date.now()+'_'+Math.random().toString(36).substr(2,9);function h(e)\x7bconst d=e.data;if(d&&d.type==='API_RESPONSE'&&d.requestId===id)\x7bwindow.removeEventListener('message',h);d.error?rej(new Error(d.error)):res(d.data);\x7d\x7dwindow.addEventListener('message',h);window.parent.postMessage(\x7btype:'API_REQUEST',requestId:id,url:u\x7d,'*');setTimeout(()=>\x7bwindow.removeEventListener('message',h);rej(new Error('API request timeout'));\x7d,3e4);\x7d);\x7d;\x7d)();</script>\n<script>window.addEventListener('error',e=>\x7bwindow.parent.postMessage(\x7btype:'IFRAME_ERROR',message:e.message,stack:e.error&&e.error.stack\x7d,'*');\x7d);window.addEventListener('unhandledrejection',e=>\x7bwindow.parent.postMessage(\x7btype:'IFRAME_ERROR',message:e.reason?e.reason.message||String(e.reason):'Unhandled rejection',stack:e.reason&&e.reason.stack\x7d,'*');\x7d);</script>"

/-- The delay (in milliseconds) armed by `setTimeout` in the bridge client:
`3e4`, i.e. 30 seconds. -/
def bridgeTimeoutMs : Nat := 30000

/-- Model of `String.prototype.indexOf`: index of the first occurrence of `pat`
in the list, `none` when absent (JS returns `-1`). -/
def firstOcc (pat : List Char) : List Char → Option Nat
  | [] => if pat.isEmpty then some 0 else none
  | c :: rest =>
    if pat.isPrefixOf (c :: rest) then some 0
    else (firstOcc pat rest).map (· + 1)

/-- Model of `injectApiBridge(htmlContent)` from the source: insert the bridge script
before the first (case-insensitive) `</head>` if present, else right after
the first `>` at or past the first (case-insensitive) `<body` (if `<body`
occurs but no `>` follows, `indexOf` yields `-1` so insertion lands at 0),
else prepend the script to the whole document. -/
def injectApiBridge (htmlContent : String) : String :=
  let l := htmlContent.data
  let lower := l.map Char.toLower
  match firstOcc "</head>".data lower with
  | some headClose => ⟨l.take headClose ++ apiBridgeScript.data ++ l.drop headClose⟩
  | none =>
    match firstOcc "<body".data lower with
    | some bodyOpen =>
      match firstOcc ['>'] (l.drop bodyOpen) with
      | some r => ⟨l.take (bodyOpen + r + 1) ++ apiBridgeScript.data ++ l.drop (bodyOpen + r + 1)⟩
      | none => ⟨apiBridgeScript.data ++ l⟩
    | none => ⟨apiBridgeScript.data ++ l⟩

/-- Constant part of the fresh-generation prompt before the user message. -/
def freshPromptPre : String :=
  "You are an expert front-end engineer who creates data visualizations.\n\nUSER REQUEST:\n\""

/-- Constant part of the fresh-generation prompt between the user message
and the API description. -/
def freshPromptMid : String :=
  "\"\n\nAVAILABLE API ENDPOINTS (OpenAPI-like schema):\n"

/-- Constant tail of the fresh-generation prompt after the API description. -/
def freshPromptSuf : String :=
  "\n\nTASK:\nGenerate a COMPLETE, self-contained HTML document (including CSS & JavaScript) that satisfies the user's request by fetching data from the listed API endpoints. Use Chart.js (CDN: https://cdn.jsdelivr.net/npm/chart.js) or native web technologies.\n\nREQUIREMENTS (IMPORTANT):\n• Return ONLY HTML/JS/CSS code – no markdown, explanations or extra text.\n• Include professional, responsive styling.\n• Use the provided global function `apiRequest(url)` for all data calls (see usage example below).\n• Handle loading states & errors gracefully within the HTML.\n• Do NOT violate browser sandbox restrictions.\n• Try to use all the available space for the diagram do NOT set max height or width.\n\nEXAMPLE API USAGE:\n```js\nasync function loadData() \x7b\n  const data = await apiRequest('/api/your-endpoint');\n  console.log(data);\n\x7d\n```\n\nReturn the finished HTML document now."

/-- Model of `buildVisualizationPrompt(userMessage)` from the source (the fresh
generation template, interpolating the user message and the configured
API description). -/
def buildVisualizationPrompt (apiDescription userMessage : String) : String :=
  freshPromptPre ++ userMessage ++ freshPromptMid ++ apiDescription ++ freshPromptSuf

/-- Constant head of the improvement prompt before the API description. -/
def improvPromptPre : String :=
  "You are provided with an EXISTING visualization (full HTML) generated earlier plus the complete history of user requests. Improve the visualization to satisfy the LATEST request while preserving prior context and functionality.\n\nAVAILABLE API ENDPOINTS:\n"

/-- Constant part of the improvement prompt between the API description and
the prior artifact. -/
def improvPromptMid1 : String :=
  "\n\nEXISTING VISUALIZATION CODE START\n"

/-- Constant part of the improvement prompt between the prior artifact and
the request history. -/
def improvPromptMid2 : String :=
  "\nEXISTING VISUALIZATION CODE END\n\nFULL USER REQUEST HISTORY:\n"

/-- Constant tail of the improvement prompt after the request history. -/
def improvPromptSuf : String :=
  "\n\nREQUIREMENTS:\n• Return ONLY HTML/JS/CSS code (no explanations).\n• Produce a FULL HTML document that can replace the previous one.\n• Continue to use the global `apiRequest(url)` helper for data access.\n• Keep styling modern and responsive.\n• Gracefully handle loading and error states."

/-- Model of the JS expression joining the request history with newlines,
as in the source: the original prompt followed by the improvement prompts,
with JS-falsy entries (a null original prompt or empty strings) dropped
by `filter(Boolean)`, joined by `join` with a newline separator. -/
def promptHistoryOf (originalPrompt : Option String) (improvementPrompts : List String) : String :=
  String.intercalate "\n" ((originalPrompt.toList ++ improvementPrompts).filter (fun s => s ≠ ""))

/-- Model of `buildImprovementPrompt(existingCode)` from the source (the improvement
template, interpolating the API description, the prior artifact and the
newline-joined request history). -/
def buildImprovementPrompt (apiDescription : String) (originalPrompt : Option String)
    (improvementPrompts : List String) (existingCode : String) : String :=
  improvPromptPre ++ apiDescription ++ improvPromptMid1 ++ existingCode ++ improvPromptMid2
    ++ promptHistoryOf originalPrompt improvementPrompts ++ improvPromptSuf

/-- Session state enum `VisualizationState` from `types.ts`. -/
inductive VisualizationState where
  | idle
  | generating
  | displaying
  | error
deriving DecidableEq, Repr

/-- Persisted history item `VisualizationHistoryItem` from the source:
prompt, generated html, creation timestamp. -/
structure VisualizationHistoryItem where
  prompt : String
  html : String
  timestamp : Nat
deriving DecidableEq, Repr

/-- Relevant fields of `AIDataVisualizationConfig`.  The two callback
functions are supplied at each call site as `Except`-valued outcomes, and
`onErrorSet` records whether the optional `onError` callback is configured.
The container is resolved by construction and plays no further role. -/
structure AIDataVisualizationConfig where
  apiDescription : String
  onErrorSet : Bool
  theme : Option String := none
  className : Option String := none
  iframeHeight : Option Nat := none
deriving DecidableEq, Repr

/-- Requirement checked by `validateConfig`: the API description must be
JS-truthy (non-empty); the callbacks are functions by construction here. -/
def validConfig (cfg : AIDataVisualizationConfig) : Prop :=
  cfg.apiDescription ≠ ""

/-- Mutable instance fields of the `AIDataVisualization` class, plus the
durable `localStorage` record under the fixed history key (modelled already
decoded; `none` means no record is stored). -/
structure WidgetState where
  state : VisualizationState
  lastGeneratedCode : Option String
  originalPrompt : Option String
  improvementPrompts : List String
  activeHistoryIndex : Option Nat
  history : List VisualizationHistoryItem
  storage : Option (List VisualizationHistoryItem)
deriving DecidableEq, Repr

/-- State of a freshly constructed instance: `initialize` runs
`loadHistory`, which adopts the persisted record when present (a missing
or corrupt record yields an empty history). -/
def initWidgetState (stored : Option (List VisualizationHistoryItem)) : WidgetState :=
  { state := VisualizationState.idle
    lastGeneratedCode := none
    originalPrompt := none
    improvementPrompts := []
    activeHistoryIndex := none
    history := stored.getD []
    storage := stored }

/-- List part of `saveHistory(item)`: `unshift` the item and `slice(0,10)`. -/
def saveHistory (item : VisualizationHistoryItem) (history : List VisualizationHistoryItem) :
    List VisualizationHistoryItem :=
  (item :: history).take 10

/-- State-level `saveHistory`: prepend, truncate to ten, persist. -/
def saveHistoryOp (st : WidgetState) (item : VisualizationHistoryItem) : WidgetState :=
  let newHistory := saveHistory item st.history
  { st with history := newHistory, storage := some newHistory }

/-- State-level `replaceHistory(idx, item)`: guarded in-place update plus
persistence; out-of-range indices change nothing. -/
def replaceHistoryOp (st : WidgetState) (idx : Nat) (item : VisualizationHistoryItem) :
    WidgetState :=
  if idx < st.history.length then
    let newHistory := st.history.set idx item
    { st with history := newHistory, storage := some newHistory }
  else st

/-- Model of `clearVisualization()`: drop the conversation context; the
history list and the persisted record are not touched.  The method calls
`setState(IDLE)`, but `setState` (source lines 929-956) only updates UI
widgets and never assigns `this.state`, so the session-state field is left
unchanged here. -/
def clearVisualization (st : WidgetState) : WidgetState :=
  { st with
    lastGeneratedCode := none
    activeHistoryIndex := none
    originalPrompt := none
    improvementPrompts := [] }

/-- Model of `clearHistory()`: empty the history list, reset the active
index and remove the persisted record. -/
def clearHistory (st : WidgetState) : WidgetState :=
  { st with history := [], activeHistoryIndex := none, storage := none }

/-- Observable effects of one `generateVisualization` call: the prompt
passed to `chatCompletion` (if reached), the messages delivered to the
configured `onError` callback, the messages shown via `showError`, the
document handed to the iframe (after bridge injection), and the sequence
of `setState(...)` invocations.  The latter are recorded as effects
because `setState` (source lines 929-956) only updates UI widgets — it
never assigns `this.state`, so these calls do not touch `WidgetState.state`. -/
structure GenEffects where
  promptSent : Option String
  faultReports : List String
  shownErrors : List String
  displayed : Option String
  setStateCalls : List VisualizationState
deriving DecidableEq, Repr

/-- Effect record with nothing observed yet. -/
def emptyGenEffects : GenEffects :=
  { promptSent := none, faultReports := [], shownErrors := [], displayed := none,
    setStateCalls := [] }

/-- Faults thrown inside the `try` block of `generateVisualization`:
the `INVALID_HTML_RESPONSE` error for an empty sanitized response, or a
rejection of the host `chatCompletion` callback. -/
inductive GenError where
  | emptyResponse
  | completionFailed (msg : String)
deriving DecidableEq, Repr

/-- Message carried by a `GenError`, as read by the `catch` clause
(`error.message`). -/
def GenError.message : GenError → String
  | .emptyResponse => "AI returned empty response"
  | .completionFailed msg => msg

/-- JS `a || b` for an optional string: the fallback replaces a missing or
empty (falsy) value. -/
def jsOrElse (o : Option String) (fallback : String) : String :=
  match o with
  | some s => if s = "" then fallback else s
  | none => fallback

/-- Body of the `try` block of `generateVisualization`, for a non-empty
trimmed message: decide fresh-vs-improvement, track the prompt history,
call `setState(GENERATING)`, build the prompt, run the completion,
sanitize, and on success display the artifact, update the conversation
context, persist or replace the history entry and call
`setState(DISPLAYING)`.  The `setState` calls are UI-only (they never
assign `this.state`), so they are recorded in the effects and the
session-state field is never modified.  A thrown error carries the state
already mutated before the throw. -/
def generateTry (cfg : AIDataVisualizationConfig) (s : WidgetState) (message : String)
    (now : Nat) (chatCompletion : String → Except String String) :
    Except (GenError × WidgetState × GenEffects) (WidgetState × GenEffects) :=
  let isImprovement := s.lastGeneratedCode.isSome && s.state == VisualizationState.displaying
  let s1 := if isImprovement then
      { s with improvementPrompts := s.improvementPrompts ++ [message] }
    else
      { s with originalPrompt := some message, improvementPrompts := [] }
  let prompt := if isImprovement then
      buildImprovementPrompt cfg.apiDescription s1.originalPrompt s1.improvementPrompts
        (s.lastGeneratedCode.getD "")
    else buildVisualizationPrompt cfg.apiDescription message
  let eff : GenEffects :=
    { promptSent := some prompt, faultReports := [], shownErrors := [], displayed := none,
      setStateCalls := [VisualizationState.generating] }
  match chatCompletion prompt with
  | .error e => .error (.completionFailed e, s1, eff)
  | .ok raw =>
    let htmlResponse := sanitizeHtmlResponse raw
    if htmlResponse = "" then .error (.emptyResponse, s1, eff)
    else
      let s3 := { s1 with lastGeneratedCode := some htmlResponse }
      let item : VisualizationHistoryItem :=
        { prompt := jsOrElse s3.originalPrompt message, html := htmlResponse, timestamp := now }
      let s4 :=
        if isImprovement && s3.activeHistoryIndex.isSome then
          replaceHistoryOp s3 (s3.activeHistoryIndex.getD 0) item
        else
          { saveHistoryOp s3 item with activeHistoryIndex := some 0 }
      .ok (s4,
        { eff with
          displayed := some (injectApiBridge htmlResponse)
          setStateCalls := eff.setStateCalls ++ [VisualizationState.displaying] })

/-- Model of the public `generateVisualization()` promise: an
`Except.error` result would be a rejected promise.  An empty trimmed
message shows a notice and returns; otherwise the `try` body runs and the
`catch` clause converts any thrown error into a `setState(ERROR)` call
(UI-only — the session-state field is not written), a shown message and a
report to the configured `onError` callback. -/
def generateVisualizationP (cfg : AIDataVisualizationConfig) (s : WidgetState)
    (textareaValue : String) (now : Nat) (chatCompletion : String → Except String String) :
    Except String (WidgetState × GenEffects) :=
  let message := jsTrim textareaValue
  if message = "" then
    .ok (s, { emptyGenEffects with shownErrors := ["Please enter a visualization request"] })
  else
    match generateTry cfg s message now chatCompletion with
    | .ok r => .ok r
    | .error (e, s2, eff) =>
      .ok (s2,
        { eff with
          shownErrors := eff.shownErrors ++ [e.message]
          faultReports := eff.faultReports ++ (if cfg.onErrorSet then [e.message] else [])
          setStateCalls := eff.setStateCalls ++ [VisualizationState.error] })

/-- Settled result of a `generateVisualization` call (the resolved value of
the promise; the fallback branch is unreachable, as proved below). -/
def runGenerate (cfg : AIDataVisualizationConfig) (s : WidgetState) (textareaValue : String)
    (now : Nat) (chatCompletion : String → Except String String) : WidgetState × GenEffects :=
  match generateVisualizationP cfg s textareaValue now chatCompletion with
  | .ok r => r
  | .error _ => (s, emptyGenEffects)

/-- Payload of an `API_REQUEST` message from the sandbox (`ApiRequestData`). -/
structure ApiRequestData where
  requestId : String
  url : String
deriving DecidableEq, Repr

/-- Payload of an `API_RESPONSE` message to the sandbox (`ApiResponseData`). -/
structure ApiResponseData where
  requestId : String
  data : Option String
  error : Option String
deriving DecidableEq, Repr

/-- Model of the host-side `handleApiRequest`: invoke the host `apiRequest`
callback and answer with the payload, or catch its rejection and answer
with the fault message.  Total: every request gets exactly one response
message and no failure escapes. -/
def handleApiRequest (req : ApiRequestData) (fetchResult : Except String String) :
    ApiResponseData :=
  match fetchResult with
  | .ok response => { requestId := req.requestId, data := some response, error := none }
  | .error e => { requestId := req.requestId, data := none, error := some e }

/-- Shape of a `message` event payload as inspected by the bridge client
handler `h` (`d.type`, `d.requestId`, `d.error`, `d.data`). -/
structure BridgeResponseMsg where
  type : String
  requestId : String
  data : Option String
  error : Option String
deriving DecidableEq, Repr

/-- Events observable by one sandboxed `apiRequest` call, in temporal
order: an incoming `message` event, or the firing of the 30-second
`setTimeout` armed when the request was posted. -/
inductive BridgeEvent where
  | message (m : BridgeResponseMsg)
  | timeoutFire
deriving DecidableEq, Repr

/-- Runtime state of one sandboxed `apiRequest` call: whether handler `h`
is still registered, and the settled outcome of its promise (`none` while
pending; a promise settles at most once). -/
structure ApiRequestState where
  listening : Bool
  outcome : Option (Except String String)
deriving Repr

/-- A freshly issued request: handler registered, promise pending. -/
def apiRequestInit : ApiRequestState :=
  { listening := true, outcome := none }

/-- Whether an event is a response message matching the request id, as
tested by handler `h`: `d.type === 'API_RESPONSE' && d.requestId === id`. -/
def isMatchingResponse (id : String) : BridgeEvent → Bool
  | .message m => m.type == "API_RESPONSE" && m.requestId == id
  | .timeoutFire => false

/-- One event step of the bridge client.  A matching message while the
handler is registered deregisters it and settles the promise (reject on a
carried `error`, resolve on `data`); non-matching messages, and any message
after deregistration, are ignored.  The timeout callback always
deregisters the handler and rejects, which is a no-op on an
already-settled promise. -/
def apiRequestStep (id : String) (st : ApiRequestState) : BridgeEvent → ApiRequestState
  | .message m =>
    if st.listening && (m.type == "API_RESPONSE" && m.requestId == id) then
      { listening := false
        outcome := match st.outcome with
          | some o => some o
          | none => some (match m.error with
            | some e => Except.error e
            | none => Except.ok (m.data.getD "")) }
    else st
  | .timeoutFire =>
    { listening := false
      outcome := match st.outcome with
        | some o => some o
        | none => some (Except.error "API request timeout") }

/-- Fold the bridge client over an event sequence, starting from a freshly
issued request. -/
def runApiRequest (id : String) (events : List BridgeEvent) : ApiRequestState :=
  events.foldl (apiRequestStep id) apiRequestInit

/-! ### Supporting lemmas -/

theorem take_append_take {α : Type} (n : Nat) (u v : List α) :
    (u ++ v.take n).take n = (u ++ v).take n := by
  rw [List.take_append_eq_append_take, List.take_append_eq_append_take, List.take_take]
  congr 1
  exact congrArg (v.take ·) (Nat.min_eq_left (Nat.sub_le n u.length))

theorem saveHistory_foldl (l acc : List VisualizationHistoryItem) (hacc : acc.length ≤ 10) :
    l.foldl (fun h i => saveHistory i h) acc = (l.reverse ++ acc).take 10 := by
  induction l generalizing acc with
  | nil => simp [List.take_of_length_le hacc]
  | cons x xs ih =>
    have h1 : (saveHistory x acc).length ≤ 10 := by
      simp [saveHistory]
    calc (x :: xs).foldl (fun h i => saveHistory i h) acc
        = xs.foldl (fun h i => saveHistory i h) (saveHistory x acc) := by rfl
      _ = (xs.reverse ++ (x :: acc).take 10).take 10 := ih _ h1
      _ = (xs.reverse ++ (x :: acc)).take 10 := take_append_take 10 _ _
      _ = ((x :: xs).reverse ++ acc).take 10 := by simp

/-- The terminal state of a bridge request whose timeout has fired with no
prior settlement. -/
def timedOutState : ApiRequestState :=
  { listening := false, outcome := some (Except.error "API request timeout") }

theorem apiRequestStep_timedOut (id : String) (e : BridgeEvent) :
    apiRequestStep id timedOutState e = timedOutState := by
  cases e with
  | message m => simp [apiRequestStep, timedOutState]
  | timeoutFire => rfl

theorem apiRequestStep_init_no_match (id : String) (e : BridgeEvent)
    (he : isMatchingResponse id e = false) :
    apiRequestStep id apiRequestInit e = apiRequestInit ∨
      apiRequestStep id apiRequestInit e = timedOutState := by
  cases e with
  | message m =>
    left
    simp only [isMatchingResponse] at he
    simp [apiRequestStep, apiRequestInit, he]
  | timeoutFire => right; rfl

theorem foldl_apiRequestStep_timedOut (id : String) (l : List BridgeEvent) :
    l.foldl (apiRequestStep id) timedOutState = timedOutState := by
  induction l with
  | nil => rfl
  | cons e es ih => simp [List.foldl_cons, apiRequestStep_timedOut, ih]

theorem foldl_apiRequestStep_no_match (id : String) (l : List BridgeEvent)
    (h : ∀ e ∈ l, isMatchingResponse id e = false) :
    l.foldl (apiRequestStep id) apiRequestInit = apiRequestInit ∨
      l.foldl (apiRequestStep id) apiRequestInit = timedOutState := by
  induction l with
  | nil => left; rfl
  | cons e es ih =>
    rw [List.foldl_cons]
    rcases apiRequestStep_init_no_match id e (h e (by simp)) with h1 | h1
    · rw [h1]
      exact ih (fun x hx => h x (by simp [hx]))
    · rw [h1, foldl_apiRequestStep_timedOut]
      right; rfl

/-! ### Claim theorems -/

/-- C5.  Inserting 11 entries through `saveHistory` into an empty store
leaves exactly 10 entries, the 10 most recently inserted ones ordered
newest-first (the reversed insertion order, truncated to 10); in general
every save bounds the history by 10 and puts the new entry at the front. -/
theorem saveHistory_bound (l : List VisualizationHistoryItem) (hlen : l.length = 11) :
    (l.foldl (fun h i => saveHistory i h) []).length = 10 ∧
    l.foldl (fun h i => saveHistory i h) [] = l.reverse.take 10 ∧
    (∀ (item : VisualizationHistoryItem) (h : List VisualizationHistoryItem),
      (saveHistory item h).length ≤ 10 ∧ (saveHistory item h).head? = some item) := by
  have hfold := saveHistory_foldl l [] (by simp)
  refine ⟨?_, by simpa using hfold, ?_⟩
  · rw [hfold]
    simp [hlen]
  · intro item h
    constructor
    · simp [saveHistory]
    · simp [saveHistory, List.take_succ_cons]

/-- Witness for C5 at a concrete run of 11 saves. -/
theorem saveHistory_bound_witness :
    ((List.replicate 11 ({ prompt := "p", html := "h", timestamp := 0 } :
        VisualizationHistoryItem)).foldl (fun h i => saveHistory i h) []).length = 10 :=
  (saveHistory_bound _ (by decide)).1

/-- C10 (code bug).  `clearVisualization` resets the whole conversation
context (artifact, original prompt, improvement prompts, active history
index) and leaves the history list and the persisted record untouched;
only `clearHistory` empties the list and removes the record.  The claimed
state reset, however, does not happen: the method's `setState(IDLE)` call
is UI-only (`setState` never assigns `this.state`), so the session-state
field is left exactly as it was. -/
theorem clearVisualization_frame (st : WidgetState) :
    (clearVisualization st).history = st.history ∧
    (clearVisualization st).storage = st.storage ∧
    (clearVisualization st).state = st.state ∧
    (clearVisualization st).lastGeneratedCode = none ∧
    (clearVisualization st).originalPrompt = none ∧
    (clearVisualization st).improvementPrompts = [] ∧
    (clearVisualization st).activeHistoryIndex = none ∧
    (clearHistory st).history = [] ∧
    (clearHistory st).storage = none :=
  ⟨rfl, rfl, rfl, rfl, rfl, rfl, rfl, rfl, rfl⟩

/-- C6.  If no matching response arrives before the 30-second timeout
fires, the request's promise rejects with the timeout fault and the
listener is deregistered; whatever arrives afterwards (including a late
matching response) can no longer change the settled outcome. -/
theorem bridge_timeout_rejects (id : String) (pre post : List BridgeEvent)
    (hpre : ∀ e ∈ pre, isMatchingResponse id e = false) :
    (runApiRequest id (pre ++ BridgeEvent.timeoutFire :: post)).outcome
        = some (Except.error "API request timeout") ∧
    (runApiRequest id (pre ++ BridgeEvent.timeoutFire :: post)).listening = false ∧
    bridgeTimeoutMs = 30000 := by
  have hrun : runApiRequest id (pre ++ BridgeEvent.timeoutFire :: post) = timedOutState := by
    rw [runApiRequest, List.foldl_append, List.foldl_cons]
    rcases foldl_apiRequestStep_no_match id pre hpre with h1 | h1 <;>
      rw [h1] <;>
      first
        | (rw [show apiRequestStep id apiRequestInit BridgeEvent.timeoutFire = timedOutState
              from rfl, foldl_apiRequestStep_timedOut])
        | (rw [apiRequestStep_timedOut, foldl_apiRequestStep_timedOut])
  rw [hrun]
  exact ⟨rfl, rfl, rfl⟩

/-- Witness for C6: a late matching response after the timeout does not
resolve the promise. -/
theorem bridge_timeout_rejects_witness :
    (runApiRequest "req_1"
        ([BridgeEvent.message { type := "API_RESPONSE", requestId := "other", data := some "d", error := none }]
          ++ BridgeEvent.timeoutFire ::
            [BridgeEvent.message { type := "API_RESPONSE", requestId := "req_1", data := some "d", error := none }])).outcome
      = some (Except.error "API request timeout") :=
  (bridge_timeout_rejects "req_1" _ _ (by decide)).1

/-- C7 (code bug).  If the completion resolves to a string that sanitizes
to empty (empty, whitespace-only or fence-only), the configured fault
callback receives the empty-response fault message and neither the history
list nor the persisted record changes, and `setState(ERROR)` is invoked —
but that call is UI-only (`setState` never assigns `this.state`), so the
session state observable through `getState()` does not become `error`; it
stays exactly what it was. -/
theorem generate_empty_response (cfg : AIDataVisualizationConfig) (s : WidgetState)
    (textareaValue : String) (now : Nat) (rawResp : String)
    (hmsg : jsTrim textareaValue ≠ "")
    (hempty : sanitizeHtmlResponse rawResp = "") :
    (runGenerate cfg s textareaValue now (fun _ => Except.ok rawResp)).1.state = s.state ∧
    (runGenerate cfg s textareaValue now (fun _ => Except.ok rawResp)).2.setStateCalls
        = [VisualizationState.generating, VisualizationState.error] ∧
    (runGenerate cfg s textareaValue now (fun _ => Except.ok rawResp)).1.history = s.history ∧
    (runGenerate cfg s textareaValue now (fun _ => Except.ok rawResp)).1.storage = s.storage ∧
    (runGenerate cfg s textareaValue now (fun _ => Except.ok rawResp)).2.faultReports
        = (if cfg.onErrorSet then ["AI returned empty response"] else []) ∧
    (runGenerate cfg s textareaValue now (fun _ => Except.ok rawResp)).2.shownErrors
        = ["AI returned empty response"] := by
  cases hImp : s.lastGeneratedCode.isSome && s.state == VisualizationState.displaying <;>
    simp [runGenerate, generateVisualizationP, generateTry, hImp, hmsg, hempty,
      GenError.message]

/-- Witness for C7: a concrete fence-only completion result leaves a fresh
instance in the idle state while reporting the empty-response fault. -/
theorem generate_empty_response_witness :
    (runGenerate { apiDescription := "API", onErrorSet := true } (initWidgetState none)
        "draw" 0 (fun _ => Except.ok "``` \n ```")).1.state = VisualizationState.idle :=
  (generate_empty_response { apiDescription := "API", onErrorSet := true }
    (initWidgetState none) "draw" 0 "``` \n ```" (by decide) (by decide)).1

theorem generateTry_error_state (cfg : AIDataVisualizationConfig) (s : WidgetState)
    (message : String) (now : Nat) (cc : String → Except String String)
    (e : GenError) (s2 : WidgetState) (eff : GenEffects)
    (he : generateTry cfg s message now cc = .error (e, s2, eff)) :
    s2.state = s.state := by
  have hif : ∀ b : Bool,
      ((if b then { s with improvementPrompts := s.improvementPrompts ++ [message] }
        else { s with originalPrompt := some message, improvementPrompts := [] }) :
        WidgetState).state = s.state := by
    intro b
    cases b <;> rfl
  simp only [generateTry] at he
  split at he
  · simp only [Except.error.injEq, Prod.mk.injEq] at he
    rw [← he.2.1]
    exact hif _
  · split at he
    · simp only [Except.error.injEq, Prod.mk.injEq] at he
      rw [← he.2.1]
      exact hif _
    · exact absurd he (by simp)

/-- C8 (code bug).  The `generateVisualization` promise always resolves
(the model never produces `Except.error` at the public boundary): any
error thrown in the `try` body — completion rejection or empty response —
is caught and converted into a report to the configured fault callback
plus a `setState(ERROR)` call, and `handleApiRequest` converts every fetch
outcome (resolve or reject) into a response message rather than letting it
escape.  The claimed conversion "into the error state" does not happen:
the `setState(ERROR)` call is UI-only, so the session-state field is
unchanged on every failure path. -/
theorem generate_never_rejects (cfg : AIDataVisualizationConfig) (s : WidgetState)
    (textareaValue : String) (now : Nat) (chatCompletion : String → Except String String) :
    generateVisualizationP cfg s textareaValue now chatCompletion
        = Except.ok (runGenerate cfg s textareaValue now chatCompletion) ∧
    (∀ e s2 eff,
      generateTry cfg s (jsTrim textareaValue) now chatCompletion = .error (e, s2, eff) →
      jsTrim textareaValue ≠ "" →
        (runGenerate cfg s textareaValue now chatCompletion).1.state = s.state ∧
        VisualizationState.error
            ∈ (runGenerate cfg s textareaValue now chatCompletion).2.setStateCalls ∧
        (cfg.onErrorSet = true →
          e.message ∈ (runGenerate cfg s textareaValue now chatCompletion).2.faultReports)) ∧
    (∀ (req : ApiRequestData) (d : String),
      handleApiRequest req (Except.ok d)
        = { requestId := req.requestId, data := some d, error := none }) ∧
    (∀ (req : ApiRequestData) (e : String),
      handleApiRequest req (Except.error e)
        = { requestId := req.requestId, data := none, error := some e }) := by
  refine ⟨?_, ?_, fun req d => rfl, fun req e => rfl⟩
  · by_cases hm : jsTrim textareaValue = ""
    · simp [generateVisualizationP, runGenerate, hm]
    · rcases h : generateTry cfg s (jsTrim textareaValue) now chatCompletion with ⟨e, s2, eff⟩ | r <;>
        simp [generateVisualizationP, runGenerate, hm, h]
  · intro e s2 eff he hm
    have hst := generateTry_error_state cfg s (jsTrim textareaValue) now chatCompletion
      e s2 eff he
    refine ⟨?_, ?_, ?_⟩
    · simp [runGenerate, generateVisualizationP, hm, he, hst]
    · simp [runGenerate, generateVisualizationP, hm, he]
    · intro honset
      simp [runGenerate, generateVisualizationP, hm, he, honset]

/-- Witness for C8: a rejecting completion callback still yields a resolved
call, with the fault reported and the state field unchanged (idle). -/
theorem generate_never_rejects_witness :
    (runGenerate { apiDescription := "API", onErrorSet := true } (initWidgetState none)
        "hi" 0 (fun _ => Except.error "boom")).1.state = VisualizationState.idle :=
  ((generate_never_rejects { apiDescription := "API", onErrorSet := true }
      (initWidgetState none) "hi" 0 (fun _ => Except.error "boom")).2.1
    (GenError.completionFailed "boom") _ _ rfl (by decide)).1

/-- C1 (code bug).  From a freshly constructed instance (valid
configuration, empty persisted store), a call with non-empty user text
whose completion resolves to `<html><body>chart</body></html>` leaves
exactly one history entry at the front whose artifact is the
fence-stripped (here: unchanged) document, and `setState` is invoked with
`GENERATING` then `DISPLAYING` — but those calls are UI-only (`setState`
never assigns `this.state`), so the session state observable through
`getState()` remains `idle`, not `displaying` as claimed. -/
theorem generate_success_scenario (cfg : AIDataVisualizationConfig) (textareaValue : String)
    (now : Nat) (hvalid : validConfig cfg) (hmsg : jsTrim textareaValue ≠ "") :
    (runGenerate cfg (initWidgetState none) textareaValue now
        (fun _ => Except.ok "<html><body>chart</body></html>")).1.state
        = VisualizationState.idle ∧
    (runGenerate cfg (initWidgetState none) textareaValue now
        (fun _ => Except.ok "<html><body>chart</body></html>")).2.setStateCalls
        = [VisualizationState.generating, VisualizationState.displaying] ∧
    (runGenerate cfg (initWidgetState none) textareaValue now
        (fun _ => Except.ok "<html><body>chart</body></html>")).1.history
        = [{ prompt := jsTrim textareaValue, html := "<html><body>chart</body></html>",
             timestamp := now }] ∧
    sanitizeHtmlResponse "<html><body>chart</body></html>"
        = "<html><body>chart</body></html>" := by
  have hsan : sanitizeHtmlResponse "<html><body>chart</body></html>"
      = "<html><body>chart</body></html>" := by decide
  refine ⟨?_, ?_, ?_, hsan⟩ <;>
    simp [runGenerate, generateVisualizationP, generateTry, hmsg, hsan, initWidgetState,
      saveHistoryOp, saveHistory, jsOrElse]

/-- Witness for C1 at a concrete request text: the state field is still
idle after the successful call. -/
theorem generate_success_scenario_witness :
    (runGenerate { apiDescription := "API", onErrorSet := false } (initWidgetState none)
        " make a chart " 42 (fun _ => Except.ok "<html><body>chart</body></html>")).1.state
        = VisualizationState.idle :=
  (generate_success_scenario { apiDescription := "API", onErrorSet := false }
    " make a chart " 42 (by unfold validConfig; decide) (by decide)).1

/-- Distinctive constant head of the improvement template (the fresh
template starts differently within its first 16 characters). -/
def improvTemplateHead : String := "You are provided"

theorem improvTemplateHead_prefix_improvement (api : String) (o : Option String)
    (imps : List String) (code : String) :
    improvTemplateHead.data <+: (buildImprovementPrompt api o imps code).data := by
  have h1 : improvTemplateHead.data <+: improvPromptPre.data := by decide
  simp only [buildImprovementPrompt, String.data_append, List.append_assoc]
  exact h1.trans (List.prefix_append _ _)

theorem improvTemplateHead_not_prefix_fresh (api msg : String) :
    ¬ improvTemplateHead.data <+: (buildVisualizationPrompt api msg).data := by
  intro h
  have hlen : improvTemplateHead.data.length ≤ freshPromptPre.data.length := by decide
  simp only [buildVisualizationPrompt, String.data_append, List.append_assoc] at h
  have h2 := List.prefix_iff_eq_take.mp h
  rw [List.take_append_of_le_length hlen] at h2
  revert h2
  decide

/-- C2.  For every non-empty submission, the prompt handed to the
completion callback exists and is the improvement template exactly when an
artifact is currently held and the state is `displaying`; in every other
case it is the fresh template.  The quantification over the whole state
and callback shows no other condition enters the choice. -/
theorem generate_template_choice (cfg : AIDataVisualizationConfig) (s : WidgetState)
    (textareaValue : String) (now : Nat) (chatCompletion : String → Except String String)
    (hmsg : jsTrim textareaValue ≠ "") :
    ∃ P, (runGenerate cfg s textareaValue now chatCompletion).2.promptSent = some P ∧
      (improvTemplateHead.data <+: P.data ↔
        (s.lastGeneratedCode.isSome = true ∧ s.state = VisualizationState.displaying)) ∧
      ((s.lastGeneratedCode.isSome = true ∧ s.state = VisualizationState.displaying) →
        P = buildImprovementPrompt cfg.apiDescription s.originalPrompt
              (s.improvementPrompts ++ [jsTrim textareaValue]) (s.lastGeneratedCode.getD "")) ∧
      (¬(s.lastGeneratedCode.isSome = true ∧ s.state = VisualizationState.displaying) →
        P = buildVisualizationPrompt cfg.apiDescription (jsTrim textareaValue)) := by
  cases hImp : s.lastGeneratedCode.isSome && s.state == VisualizationState.displaying with
  | false =>
    have hProp : ¬(s.lastGeneratedCode.isSome = true ∧ s.state = VisualizationState.displaying) := by
      rintro ⟨h1, h2⟩
      rw [h1, h2] at hImp
      exact absurd hImp (by decide)
    refine ⟨buildVisualizationPrompt cfg.apiDescription (jsTrim textareaValue), ?_, ?_, ?_, ?_⟩
    · rcases h : chatCompletion (buildVisualizationPrompt cfg.apiDescription (jsTrim textareaValue))
        with e | raw
      · simp [runGenerate, generateVisualizationP, generateTry, hImp, hmsg, h]
      · by_cases hs : sanitizeHtmlResponse raw = "" <;>
          simp [runGenerate, generateVisualizationP, generateTry, hImp, hmsg, h, hs]
    · constructor
      · intro hpre
        exact absurd hpre (improvTemplateHead_not_prefix_fresh _ _)
      · intro hc
        exact absurd hc hProp
    · intro hc
      exact absurd hc hProp
    · intro _
      rfl
  | true =>
    have hProp : s.lastGeneratedCode.isSome = true ∧ s.state = VisualizationState.displaying := by
      rcases Bool.and_eq_true_iff.mp hImp with ⟨h1, h2⟩
      exact ⟨h1, by simpa using h2⟩
    refine ⟨buildImprovementPrompt cfg.apiDescription s.originalPrompt
        (s.improvementPrompts ++ [jsTrim textareaValue]) (s.lastGeneratedCode.getD ""),
        ?_, ?_, fun _ => rfl, fun hc => absurd hProp hc⟩
    · rcases h : chatCompletion (buildImprovementPrompt cfg.apiDescription s.originalPrompt
          (s.improvementPrompts ++ [jsTrim textareaValue]) (s.lastGeneratedCode.getD ""))
        with e | raw
      · simp [runGenerate, generateVisualizationP, generateTry, hImp, hmsg, h]
      · by_cases hs : sanitizeHtmlResponse raw = "" <;>
          simp [runGenerate, generateVisualizationP, generateTry, hImp, hmsg, h, hs]
    · exact iff_of_true (improvTemplateHead_prefix_improvement _ _ _ _) hProp

/-- Witness for C2: concrete fresh-generation case. -/
theorem generate_template_choice_witness :
    ∃ P, (runGenerate { apiDescription := "API", onErrorSet := false } (initWidgetState none)
        "chart" 3 (fun _ => Except.ok "<p>x</p>")).2.promptSent = some P ∧
      P = buildVisualizationPrompt "API" "chart" := by
  obtain ⟨P, hsent, _, _, hfresh⟩ :=
    generate_template_choice { apiDescription := "API", onErrorSet := false }
      (initWidgetState none) "chart" 3 (fun _ => Except.ok "<p>x</p>") (by decide)
  refine ⟨P, hsent, ?_⟩
  rw [hfresh (by rintro ⟨h1, _⟩; simp [initWidgetState] at h1)]
  rfl

theorem runGenerate_promptSent_of_improvement (cfg : AIDataVisualizationConfig)
    (s : WidgetState) (textareaValue : String) (now : Nat)
    (chatCompletion : String → Except String String)
    (hmsg : jsTrim textareaValue ≠ "")
    (hImp : (s.lastGeneratedCode.isSome && s.state == VisualizationState.displaying) = true) :
    (runGenerate cfg s textareaValue now chatCompletion).2.promptSent
      = some (buildImprovementPrompt cfg.apiDescription s.originalPrompt
          (s.improvementPrompts ++ [jsTrim textareaValue]) (s.lastGeneratedCode.getD "")) := by
  rcases h : chatCompletion (buildImprovementPrompt cfg.apiDescription s.originalPrompt
      (s.improvementPrompts ++ [jsTrim textareaValue]) (s.lastGeneratedCode.getD ""))
    with e | raw
  · simp [runGenerate, generateVisualizationP, generateTry, hImp, hmsg, h]
  · by_cases hs : sanitizeHtmlResponse raw = "" <;>
      simp [runGenerate, generateVisualizationP, generateTry, hImp, hmsg, h, hs]

/-- C3.  For every non-empty input submitted while the state is
`displaying` and an artifact is held (with the conversation context wired
as the code maintains it: a non-empty original prompt and non-empty
improvement prompts), the prompt sent to the completion callback is the
improvement template and contains, verbatim as substrings, the prior
artifact, the API description, and the newline-joined request history
(original prompt, then every improvement prompt including the new one). -/
theorem improvement_prompt_contents (cfg : AIDataVisualizationConfig) (s : WidgetState)
    (textareaValue : String) (now : Nat) (chatCompletion : String → Except String String)
    (code p : String)
    (hmsg : jsTrim textareaValue ≠ "")
    (hstate : s.state = VisualizationState.displaying)
    (hcode : s.lastGeneratedCode = some code)
    (horig : s.originalPrompt = some p)
    (hp : p ≠ "")
    (himps : ∀ q ∈ s.improvementPrompts, q ≠ "") :
    ∃ P, (runGenerate cfg s textareaValue now chatCompletion).2.promptSent = some P ∧
      improvTemplateHead.data <+: P.data ∧
      code.data <:+: P.data ∧
      cfg.apiDescription.data <:+: P.data ∧
      (String.intercalate "\n"
          (p :: (s.improvementPrompts ++ [jsTrim textareaValue]))).data <:+: P.data := by
  have hImp : (s.lastGeneratedCode.isSome && s.state == VisualizationState.displaying) = true := by
    rw [hcode, hstate]; rfl
  have hsent := runGenerate_promptSent_of_improvement cfg s textareaValue now chatCompletion
    hmsg hImp
  rw [hcode, horig] at hsent
  have hhist : promptHistoryOf (some p) (s.improvementPrompts ++ [jsTrim textareaValue])
      = String.intercalate "\n" (p :: (s.improvementPrompts ++ [jsTrim textareaValue])) := by
    rw [promptHistoryOf]
    congr 1
    apply List.filter_eq_self.mpr
    intro a ha
    simp only [Option.toList_some, List.singleton_append] at ha
    simp only [decide_eq_true_eq]
    rcases List.mem_cons.mp ha with rfl | ha2
    · exact hp
    rcases List.mem_append.mp ha2 with h3 | h3
    · exact himps a h3
    · rcases List.mem_singleton.mp h3 with rfl
      exact hmsg
  refine ⟨_, hsent, improvTemplateHead_prefix_improvement _ _ _ _, ?_, ?_, ?_⟩
  · refine ⟨(improvPromptPre ++ cfg.apiDescription ++ improvPromptMid1).data,
      (improvPromptMid2 ++ promptHistoryOf (some p)
        (s.improvementPrompts ++ [jsTrim textareaValue]) ++ improvPromptSuf).data, ?_⟩
    simp [buildImprovementPrompt, String.data_append, List.append_assoc, Option.getD]
  · refine ⟨improvPromptPre.data,
      (improvPromptMid1 ++ code ++ improvPromptMid2 ++ promptHistoryOf (some p)
        (s.improvementPrompts ++ [jsTrim textareaValue]) ++ improvPromptSuf).data, ?_⟩
    simp [buildImprovementPrompt, String.data_append, List.append_assoc, Option.getD]
  · rw [← hhist]
    refine ⟨(improvPromptPre ++ cfg.apiDescription ++ improvPromptMid1 ++ code
        ++ improvPromptMid2).data, improvPromptSuf.data, ?_⟩
    simp [buildImprovementPrompt, String.data_append, List.append_assoc, Option.getD]

/-- Witness for C3 at a concrete displaying state with one previous
improvement. -/
theorem improvement_prompt_contents_witness :
    ∃ P, (runGenerate { apiDescription := "API", onErrorSet := false }
        { state := VisualizationState.displaying, lastGeneratedCode := some "<old>",
          originalPrompt := some "orig", improvementPrompts := ["imp1"],
          activeHistoryIndex := some 0, history := [], storage := none }
        "make it red" 7 (fun _ => Except.ok "<p>y</p>")).2.promptSent = some P ∧
      "<old>".data <:+: P.data ∧
      (String.intercalate "\n" ["orig", "imp1", jsTrim "make it red"]).data <:+: P.data := by
  obtain ⟨P, hsent, _, hcode, _, hhist⟩ :=
    improvement_prompt_contents { apiDescription := "API", onErrorSet := false }
      { state := VisualizationState.displaying, lastGeneratedCode := some "<old>",
        originalPrompt := some "orig", improvementPrompts := ["imp1"],
        activeHistoryIndex := some 0, history := [], storage := none }
      "make it red" 7 (fun _ => Except.ok "<p>y</p>") "<old>" "orig"
      (by decide) rfl rfl rfl (by decide) (by decide)
  exact ⟨P, hsent, hcode, hhist⟩

/-- Wrapping an artifact in a language-tagged leading fence and a trailing
fence, as an LLM reply might. -/
def wrapFenceTagged (artifact : String) : String := "```html\n" ++ artifact ++ "\n```"

/-- Wrapping an artifact in an untagged leading fence and a trailing fence. -/
def wrapFencePlain (artifact : String) : String := "```\n" ++ artifact ++ "\n```"

theorem head_not_ws_of_dropWhile_self (c : Char) (t : List Char)
    (h : (c :: t).dropWhile isJsWs = c :: t) : isJsWs c = false := by
  by_cases hc : isJsWs c = true
  · rw [List.dropWhile_cons, if_pos hc] at h
    have h1 := congrArg List.length h
    have h2 := (List.dropWhile_sublist isJsWs (l := t)).length_le
    simp only [List.length_cons] at h1
    omega
  · simpa using hc

theorem dropWhile_append_self (l r : List Char) (h : l.dropWhile isJsWs = l) (hne : l ≠ []) :
    (l ++ r).dropWhile isJsWs = l ++ r := by
  cases l with
  | nil => exact absurd rfl hne
  | cons c t =>
    have hc := head_not_ws_of_dropWhile_self c t h
    show ((c :: (t ++ r)).dropWhile isJsWs) = c :: (t ++ r)
    rw [List.dropWhile_cons, if_neg (by simp [hc])]

theorem trimL_eq_self (l : List Char) (hf : l.dropWhile isJsWs = l)
    (hb : l.reverse.dropWhile isJsWs = l.reverse) : trimL l = l := by
  rw [trimL, hf, hb, List.reverse_reverse]

theorem fence_not_prefix_append (d T2 : List Char) (h3 : ¬ (fenceMarker.data <:+: d)) :
    fenceMarker.data.isPrefixOf (d ++ '\n' :: T2) = false := by
  have hfd : fenceMarker.data = ['\x60', '\x60', '\x60'] := rfl
  have hnl : (('\x60' : Char) == '\n') = false := by decide
  match d with
  | [] =>
    rw [hfd]
    simp only [List.nil_append, List.isPrefixOf_cons₂]
    rw [hnl, Bool.false_and]
  | [c1] =>
    rw [hfd]
    simp only [List.cons_append, List.nil_append, List.isPrefixOf_cons₂]
    rw [hnl, Bool.false_and, Bool.and_false]
  | [c1, c2] =>
    rw [hfd]
    simp only [List.cons_append, List.nil_append, List.isPrefixOf_cons₂]
    rw [hnl, Bool.false_and, Bool.and_false, Bool.and_false]
  | c1 :: c2 :: c3 :: d3 =>
    rw [hfd]
    simp only [List.cons_append, List.isPrefixOf_cons₂]
    by_cases h1 : ('\x60' : Char) = c1
    · by_cases h2 : ('\x60' : Char) = c2
      · by_cases hc3 : ('\x60' : Char) = c3
        · exact absurd ⟨[], d3, by rw [hfd]; rw [← h1, ← h2, ← hc3] at *; rfl⟩ h3
        · rw [beq_eq_false_iff_ne.mpr hc3, Bool.false_and, Bool.and_false, Bool.and_false]
      · rw [beq_eq_false_iff_ne.mpr h2, Bool.false_and, Bool.and_false]
    · rw [beq_eq_false_iff_ne.mpr h1, Bool.false_and]

theorem dropWhile_cons_not_ws (c : Char) (rest : List Char) (hc : isJsWs c = false) :
    (c :: rest).dropWhile isJsWs = c :: rest := by
  rw [List.dropWhile_cons, if_neg (by simp [hc])]

theorem html_check_append_false (d T2 : List Char)
    (hd : (d.take 4).map Char.toLower ≠ "html".data) :
    ((d ++ '\n' :: T2).take 4).map Char.toLower ≠ "html".data := by
  have hh : "html".data = ['h', 't', 'm', 'l'] := rfl
  match d with
  | [] =>
    intro h
    rw [show (([] : List Char) ++ '\n' :: T2).take 4 = '\n' :: T2.take 3 from rfl,
      List.map_cons, hh] at h
    injection h with h1 _
    exact absurd h1 (by decide)
  | [c1] =>
    intro h
    rw [show (([c1] : List Char) ++ '\n' :: T2).take 4 = c1 :: '\n' :: T2.take 2 from rfl,
      List.map_cons, List.map_cons, hh] at h
    injection h with _ h2
    injection h2 with h2a _
    exact absurd h2a (by decide)
  | [c1, c2] =>
    intro h
    rw [show (([c1, c2] : List Char) ++ '\n' :: T2).take 4 = c1 :: c2 :: '\n' :: T2.take 1 from rfl,
      List.map_cons, List.map_cons, List.map_cons, hh] at h
    injection h with _ h2
    injection h2 with _ h3
    injection h3 with h3a _
    exact absurd h3a (by decide)
  | [c1, c2, c3] =>
    intro h
    rw [show (([c1, c2, c3] : List Char) ++ '\n' :: T2).take 4 = [c1, c2, c3, '\n'] from rfl,
      hh] at h
    simp only [List.map_cons, List.map_nil] at h
    injection h with _ h2
    injection h2 with _ h3
    injection h3 with _ h4
    injection h4 with h4a _
    exact absurd h4a (by decide)
  | c1 :: c2 :: c3 :: c4 :: d4 =>
    intro h
    apply hd
    rw [show (c1 :: c2 :: c3 :: c4 :: d4).take 4 = [c1, c2, c3, c4] from rfl]
    rw [show ((c1 :: c2 :: c3 :: c4 :: d4) ++ '\n' :: T2).take 4 = [c1, c2, c3, c4] from rfl] at h
    exact h

theorem dropFenceHtml_tagged (X : List Char) :
    dropFenceHtml ("```html\n".data ++ X) = X.dropWhile isJsWs := rfl

theorem dropFenceBare_wrap (d : List Char) (h3 : ¬ (fenceMarker.data <:+: d)) :
    dropFenceBare (d ++ "\n```".data) = d ++ "\n```".data := by
  have hp : fenceMarker.data.isPrefixOf (d ++ "\n```".data) = false :=
    fence_not_prefix_append d "```".data h3
  simp [dropFenceBare, hp]

theorem dropTrailingFence_append (d : List Char) :
    dropTrailingFence (d ++ "\n```".data) = d ++ ['\n'] := by
  have hr1 : (d ++ "\n```".data).reverse = '\x60' :: '\x60' :: '\x60' :: '\n' :: d.reverse := by
    rw [List.reverse_append]
    rfl
  simp only [dropTrailingFence]
  rw [hr1]
  rw [show (('\x60' :: '\x60' :: '\x60' :: '\n' :: d.reverse).dropWhile isJsWs)
      = '\x60' :: '\x60' :: '\x60' :: '\n' :: d.reverse from rfl]
  rw [if_pos (show fenceMarker.data.isPrefixOf
      ('\x60' :: '\x60' :: '\x60' :: '\n' :: d.reverse) = true from rfl)]
  rw [show ('\x60' :: '\x60' :: '\x60' :: '\n' :: d.reverse).drop 3 = '\n' :: d.reverse from rfl]
  rw [List.reverse_cons, List.reverse_reverse]

theorem rev_dropWhile_newline (d : List Char) (hb : d.reverse.dropWhile isJsWs = d.reverse) :
    ((d ++ ['\n']).reverse.dropWhile isJsWs).reverse = d := by
  have hr : (d ++ ['\n']).reverse = '\n' :: d.reverse := by
    rw [List.reverse_append]
    rfl
  rw [hr, List.dropWhile_cons, if_pos (by decide), hb, List.reverse_reverse]

theorem trimL_append_newline (d : List Char) (hf : d.dropWhile isJsWs = d)
    (hb : d.reverse.dropWhile isJsWs = d.reverse) (hd : d ≠ []) :
    trimL (d ++ ['\n']) = d := by
  rw [trimL, dropWhile_append_self d ['\n'] hf hd]
  exact rev_dropWhile_newline d hb

theorem sanitizeData_wrapTagged (d : List Char) (hf : d.dropWhile isJsWs = d)
    (hb : d.reverse.dropWhile isJsWs = d.reverse) (h3 : ¬ (fenceMarker.data <:+: d))
    (hd : d ≠ []) :
    sanitizeData ("```html\n".data ++ (d ++ "\n```".data)) = d := by
  have htrim0 : trimL ("```html\n".data ++ (d ++ "\n```".data))
      = "```html\n".data ++ (d ++ "\n```".data) := by
    apply trimL_eq_self
    · exact dropWhile_append_self _ _ (by decide) (by decide)
    · rw [List.reverse_append]
      rw [show (d ++ "\n```".data).reverse = '\x60' :: '\x60' :: '\x60' :: '\n' :: d.reverse from
        by rw [List.reverse_append]; rfl]
      exact dropWhile_cons_not_ws _ _ (by decide)
  rw [sanitizeData, htrim0, dropFenceHtml_tagged,
    dropWhile_append_self d "\n```".data hf hd, dropFenceBare_wrap d h3,
    dropTrailingFence_append d]
  exact trimL_append_newline d hf hb hd

theorem sanitizeData_wrapPlain (d : List Char) (hf : d.dropWhile isJsWs = d)
    (hb : d.reverse.dropWhile isJsWs = d.reverse)
    (hd : d ≠ []) (hhtml : (d.take 4).map Char.toLower ≠ "html".data) :
    sanitizeData ("```\n".data ++ (d ++ "\n```".data)) = d := by
  have htrim0 : trimL ("```\n".data ++ (d ++ "\n```".data))
      = "```\n".data ++ (d ++ "\n```".data) := by
    apply trimL_eq_self
    · exact dropWhile_append_self _ _ (by decide) (by decide)
    · rw [List.reverse_append]
      rw [show (d ++ "\n```".data).reverse = '\x60' :: '\x60' :: '\x60' :: '\n' :: d.reverse from
        by rw [List.reverse_append]; rfl]
      exact dropWhile_cons_not_ws _ _ (by decide)
  have hstep2 : dropFenceHtml ("```\n".data ++ (d ++ "\n```".data))
      = "```\n".data ++ (d ++ "\n```".data) := by
    have hX : (d ++ "\n```".data).dropWhile isJsWs = d ++ "\n```".data :=
      dropWhile_append_self d _ hf hd
    have hc : ((d ++ "\n```".data).take 4).map Char.toLower ≠ "html".data :=
      html_check_append_false d "```".data hhtml
    simp only [dropFenceHtml]
    rw [if_pos (show fenceMarker.data.isPrefixOf
        ("```\n".data ++ (d ++ "\n```".data)) = true from rfl)]
    rw [show ((("```\n".data ++ (d ++ "\n```".data)).drop 3).dropWhile isJsWs)
        = (d ++ "\n```".data).dropWhile isJsWs from rfl]
    rw [hX, if_neg hc]
  have hstep3 : dropFenceBare ("```\n".data ++ (d ++ "\n```".data))
      = '\n' :: (d ++ "\n```".data) := rfl
  have hstep4 : dropTrailingFence ('\n' :: (d ++ "\n```".data)) = '\n' :: (d ++ ['\n']) := by
    have hr1 : ('\n' :: (d ++ "\n```".data)).reverse
        = '\x60' :: '\x60' :: '\x60' :: '\n' :: (d.reverse ++ ['\n']) := by
      rw [List.reverse_cons, List.reverse_append, List.append_assoc]
      rfl
    simp only [dropTrailingFence]
    rw [hr1]
    rw [show (('\x60' :: '\x60' :: '\x60' :: '\n' :: (d.reverse ++ ['\n'])).dropWhile isJsWs)
        = '\x60' :: '\x60' :: '\x60' :: '\n' :: (d.reverse ++ ['\n']) from rfl]
    rw [if_pos (show fenceMarker.data.isPrefixOf
        ('\x60' :: '\x60' :: '\x60' :: '\n' :: (d.reverse ++ ['\n'])) = true from rfl)]
    rw [show ('\x60' :: '\x60' :: '\x60' :: '\n' :: (d.reverse ++ ['\n'])).drop 3
        = '\n' :: (d.reverse ++ ['\n']) from rfl]
    rw [List.reverse_cons, List.reverse_append, List.reverse_reverse]
    rfl
  have hstep5 : trimL ('\n' :: (d ++ ['\n'])) = d := by
    rw [trimL, List.dropWhile_cons, if_pos (by decide),
      dropWhile_append_self d ['\n'] hf hd]
    exact rev_dropWhile_newline d hb
  rw [sanitizeData, htrim0, hstep2, hstep3, hstep4, hstep5]

theorem sanitizeData_clean (d : List Char) (hf : d.dropWhile isJsWs = d)
    (hb : d.reverse.dropWhile isJsWs = d.reverse) (h3 : ¬ (fenceMarker.data <:+: d)) :
    sanitizeData d = d := by
  have h1 : trimL d = d := trimL_eq_self d hf hb
  have hnp : fenceMarker.data.isPrefixOf d = false := by
    cases hx : fenceMarker.data.isPrefixOf d with
    | false => rfl
    | true => exact absurd ( List.isPrefixOf_iff_prefix.mp hx).isInfix h3
  have h2 : dropFenceHtml d = d := by simp [dropFenceHtml, hnp]
  have h4 : dropFenceBare d = d := by simp [dropFenceBare, hnp]
  have hnp2 : fenceMarker.data.isPrefixOf d.reverse = false := by
    cases hx : fenceMarker.data.isPrefixOf d.reverse with
    | false => rfl
    | true =>
      exfalso
      have h5 := List.isPrefixOf_iff_prefix.mp hx
      rw [show fenceMarker.data = fenceMarker.data.reverse from rfl] at h5
      exact h3 ( List.reverse_prefix.mp h5).isInfix
  have h6 : dropTrailingFence d = d := by
    simp only [dropTrailingFence]
    rw [hb, if_neg (by simp [hnp2])]
  rw [sanitizeData, h1, h2, h4, h6, h1]

/-- C4 counterexample.  Sanitizing a wrapped artifact does not always
return the artifact: a leading space survives the wrap but not the
sanitizer (the regex whitespace run swallows it), and an artifact starting
with the tag word `html` loses it under the untagged wrap (the leading
regex treats it as the fence language tag). -/
theorem sanitize_fence_roundTrip_cex :
    sanitizeHtmlResponse (wrapFenceTagged " x") ≠ " x" ∧
    sanitizeHtmlResponse (wrapFenceTagged " x") = "x" ∧
    sanitizeHtmlResponse (wrapFencePlain "html") ≠ "html" ∧
    sanitizeHtmlResponse (wrapFencePlain "html") = "" := by decide

/-- C4 (amended).  For every artifact that is trimmed (whitespace-stripped
at both ends), contains no fence marker, and — for the untagged wrap — does
not begin with the (case-insensitive) tag `html`, sanitizing the wrapped
artifact returns exactly the original; and sanitizing an already-clean
(fence-free, trimmed) artifact returns it unchanged. -/
theorem sanitize_fence_roundTrip (a : String)
    (hf : a.data.dropWhile isJsWs = a.data)
    (hb : a.data.reverse.dropWhile isJsWs = a.data.reverse)
    (hnof : ¬ (fenceMarker.data <:+: a.data)) :
    sanitizeHtmlResponse (wrapFenceTagged a) = a ∧
    ((a.data.take 4).map Char.toLower ≠ "html".data →
      sanitizeHtmlResponse (wrapFencePlain a) = a) ∧
    sanitizeHtmlResponse a = a := by
  by_cases hd : a.data = []
  · have ha : a = "" := String.ext hd
    subst ha
    exact ⟨by decide, fun _ => by decide, by decide⟩
  · have hwt : (wrapFenceTagged a).data = "```html\n".data ++ (a.data ++ "\n```".data) := by
      rw [wrapFenceTagged, String.data_append, String.data_append, List.append_assoc]
    have hwp : (wrapFencePlain a).data = "```\n".data ++ (a.data ++ "\n```".data) := by
      rw [wrapFencePlain, String.data_append, String.data_append, List.append_assoc]
    refine ⟨?_, ?_, ?_⟩
    · have hlist : sanitizeData ((wrapFenceTagged a).data) = a.data := by
        rw [hwt]
        exact sanitizeData_wrapTagged a.data hf hb hnof hd
      simp only [sanitizeHtmlResponse]
      rw [hlist]
    · intro hhtml
      have hlist : sanitizeData ((wrapFencePlain a).data) = a.data := by
        rw [hwp]
        exact sanitizeData_wrapPlain a.data hf hb hd hhtml
      simp only [sanitizeHtmlResponse]
      rw [hlist]
    · have hlist : sanitizeData a.data = a.data := sanitizeData_clean a.data hf hb hnof
      simp only [sanitizeHtmlResponse]
      rw [hlist]

/-- Witness for C4 (amended) at a concrete clean artifact. -/
theorem sanitize_fence_roundTrip_witness :
    sanitizeHtmlResponse (wrapFenceTagged "<p>x</p>") = "<p>x</p>" ∧
    sanitizeHtmlResponse (wrapFencePlain "<p>x</p>") = "<p>x</p>" ∧
    sanitizeHtmlResponse "<p>x</p>" = "<p>x</p>" := by
  obtain ⟨h1, h2, h3⟩ := sanitize_fence_roundTrip "<p>x</p>" (by decide) (by decide) (by decide)
  exact ⟨h1, h2 (by decide), h3⟩

theorem firstOcc_some_spec (pat : List Char) :
    ∀ (l : List Char) (i : Nat), firstOcc pat l = some i →
      pat <+: l.drop i ∧ ∀ j < i, ¬ pat <+: l.drop j := by
  intro l
  induction l with
  | nil =>
    intro i h
    rw [firstOcc] at h
    by_cases hp : pat.isEmpty
    · rw [if_pos hp] at h
      injection h with h0
      subst h0
      refine ⟨?_, fun j hj => absurd hj (by omega)⟩
      rw [List.isEmpty_iff] at hp
      simp [hp]
    · rw [if_neg hp] at h
      exact absurd h (by simp)
  | cons c rest ih =>
    intro i h
    rw [firstOcc] at h
    by_cases hp : pat.isPrefixOf (c :: rest) = true
    · rw [if_pos hp] at h
      injection h with h0
      subst h0
      exact ⟨ List.isPrefixOf_iff_prefix.mp hp, fun j hj => absurd hj (by omega)⟩
    · rw [if_neg hp] at h
      rcases ho : firstOcc pat rest with _ | i2
      · rw [ho] at h
        exact absurd h (by simp)
      · rw [ho] at h
        simp only [Option.map_some'] at h
        injection h with h1
        subst h1
        obtain ⟨h1, h2⟩ := ih i2 ho
        refine ⟨by simpa using h1, ?_⟩
        intro j hj
        cases j with
        | zero =>
          simp only [List.drop_zero]
          intro hpre
          exact hp ( List.isPrefixOf_iff_prefix.mpr hpre)
        | succ k =>
          have hk : k < i2 := by omega
          simpa using h2 k hk

theorem firstOcc_none_spec (pat : List Char) (hne : pat ≠ []) :
    ∀ l : List Char, firstOcc pat l = none → ∀ j, ¬ pat <+: l.drop j := by
  intro l
  induction l with
  | nil =>
    intro _ j hpre
    rw [List.drop_nil] at hpre
    exact hne (List.prefix_nil.mp hpre)
  | cons c rest ih =>
    intro h j
    rw [firstOcc] at h
    by_cases hp : pat.isPrefixOf (c :: rest) = true
    · rw [if_pos hp] at h
      exact absurd h (by simp)
    · rw [if_neg hp] at h
      rcases ho : firstOcc pat rest with _ | i2
      · cases j with
        | zero =>
          simp only [List.drop_zero]
          intro hpre
          exact hp ( List.isPrefixOf_iff_prefix.mpr hpre)
        | succ k =>
          simpa using ih ho k
      · rw [ho] at h
        exact absurd h (by simp)

/-- C9 (amended).  The bridge-injection result always splits the artifact
at one index `k` with the bridge script inserted there and the artifact
text otherwise unchanged; when a (case-insensitive) closing head marker
exists, `k` is exactly the position of the first one; when none exists but
a (case-insensitive) `<body` marker does, `k` is one past the first `>` at
or after the first `<body` (and `k = 0` when no such `>` follows, matching
`indexOf` returning `-1`); when neither marker exists, `k = 0` (the script
is prepended, hence precedes all artifact content).  The bridge is,
however, not always installed before every generated script — see the
counterexample. -/
theorem first_pos_unique {pat l : List Char} {j1 j2 : Nat}
    (h1 : pat <+: l.drop j1) (m1 : ∀ t < j1, ¬ pat <+: l.drop t)
    (h2 : pat <+: l.drop j2) (m2 : ∀ t < j2, ¬ pat <+: l.drop t) : j1 = j2 := by
  rcases Nat.lt_trichotomy j1 j2 with h | h | h
  · exact absurd h1 (m2 j1 h)
  · exact h
  · exact absurd h2 (m1 j2 h)

theorem injectApiBridge_insertion (html : String) :
    ∃ k,
      (injectApiBridge html).data
          = html.data.take k ++ apiBridgeScript.data ++ html.data.drop k ∧
      html.data.take k ++ html.data.drop k = html.data ∧
      ((∃ i, "</head>".data <+: (html.data.map Char.toLower).drop i) →
        "</head>".data <+: (html.data.map Char.toLower).drop k ∧
        ∀ j < k, ¬ "</head>".data <+: (html.data.map Char.toLower).drop j) ∧
      ((∀ i, ¬ "</head>".data <+: (html.data.map Char.toLower).drop i) →
        ∀ j, ("<body".data <+: (html.data.map Char.toLower).drop j ∧
              ∀ t < j, ¬ "<body".data <+: (html.data.map Char.toLower).drop t) →
          (∀ r, ((['>'] <+: (html.data.drop j).drop r) ∧
                 ∀ t < r, ¬ ['>'] <+: (html.data.drop j).drop t) → k = j + r + 1) ∧
          ((∀ r, ¬ ['>'] <+: (html.data.drop j).drop r) → k = 0)) ∧
      (((∀ i, ¬ "</head>".data <+: (html.data.map Char.toLower).drop i) ∧
        (∀ i, ¬ "<body".data <+: (html.data.map Char.toLower).drop i)) → k = 0) := by
  rcases hh : firstOcc "</head>".data (html.data.map Char.toLower) with _ | i
  · have hnone := firstOcc_none_spec "</head>".data (by decide) (html.data.map Char.toLower) hh
    rcases hb : firstOcc "<body".data (html.data.map Char.toLower) with _ | j0
    · refine ⟨0, ?_, by simp, ?_, ?_, fun _ => rfl⟩
      · simp only [injectApiBridge, hh, hb]
        simp
      · rintro ⟨i, hi⟩
        exact absurd hi (hnone i)
      · intro _ j hj
        exact absurd hj.1 (firstOcc_none_spec "<body".data (by decide) _ hb j)
    · rcases hg : firstOcc ['>'] (html.data.drop j0) with _ | r0
      · refine ⟨0, ?_, by simp, ?_, ?_, ?_⟩
        · simp only [injectApiBridge, hh, hb, hg]
          simp
        · rintro ⟨i, hi⟩
          exact absurd hi (hnone i)
        · intro _ j hj
          obtain ⟨hocc, hmin⟩ := hj
          have hj0 := firstOcc_some_spec _ _ j0 hb
          have hje : j0 = j := first_pos_unique hj0.1 hj0.2 hocc hmin
          subst hje
          constructor
          · intro r hr
            exact absurd hr.1 (firstOcc_none_spec ['>'] (by decide) (html.data.drop j0) hg r)
          · intro _
            rfl
        · intro _
          rfl
      · refine ⟨j0 + r0 + 1, ?_, by simp, ?_, ?_, ?_⟩
        · simp only [injectApiBridge, hh, hb, hg]
        · rintro ⟨i, hi⟩
          exact absurd hi (hnone i)
        · intro _ j hj
          obtain ⟨hocc, hmin⟩ := hj
          have hj0 := firstOcc_some_spec _ _ j0 hb
          have hje : j0 = j := first_pos_unique hj0.1 hj0.2 hocc hmin
          subst hje
          have hr0 := firstOcc_some_spec _ _ r0 hg
          constructor
          · intro r hr
            have hre : r0 = r := first_pos_unique hr0.1 hr0.2 hr.1 hr.2
            rw [hre]
          · intro hng
            exact absurd hr0.1 (hng r0)
        · rintro ⟨_, hnobody⟩
          exact absurd (firstOcc_some_spec _ _ j0 hb).1 (hnobody j0)
  · refine ⟨i, ?_, by simp, ?_, ?_, ?_⟩
    · simp only [injectApiBridge, hh]
    · intro _
      exact firstOcc_some_spec _ _ i hh
    · intro hnohead
      exact absurd (firstOcc_some_spec _ _ i hh).1 (hnohead i)
    · rintro ⟨hnohead, _⟩
      exact absurd (firstOcc_some_spec _ _ i hh).1 (hnohead i)

/-- Witness for C9 (amended) at a concrete artifact with no markers: the
bridge is prepended (k = 0). -/
theorem injectApiBridge_insertion_witness :
    ∃ k, (injectApiBridge "x").data
        = "x".data.take k ++ apiBridgeScript.data ++ "x".data.drop k := by
  obtain ⟨k, h1, _, _, _⟩ := injectApiBridge_insertion "x"
  exact ⟨k, h1⟩

/-- C9 counterexample.  For an artifact whose script tag precedes the body
tag of a head-less document, the injection point (right after `<body...>`,
index 24 here) lies after the generated script tag, so the generated
script runs before the bridge is installed — refuting the claim that the
bridge always precedes any generated script. -/
theorem injectApiBridge_script_first_cex :
    (injectApiBridge "<script>a</script><body>b</body>").data
        = "<script>a</script><body>b</body>".data.take 24 ++ apiBridgeScript.data
          ++ "<script>a</script><body>b</body>".data.drop 24 ∧
    "<script".data <:+: "<script>a</script><body>b</body>".data.take 24 := by
  constructor
  · rfl
  · decide
